import Mathlib

/-!
Verification development for the video face-masking tool (`src/GUI/blur.py`).

Shallow embedding conventions:
* A pixel is a BGR triple of natural numbers; a `Frame` is a pair of
  dimensions together with a total pixel function (out-of-range coordinates
  are irrelevant junk, mirroring that numpy arrays are only read in bounds).
* A `Mask` is the single-channel analogue (values 0 / 255 in practice).
* External OpenCV / RTMPose / DeepSort primitives (Gaussian blur, the
  down/up-sampling pair used for pixelation, `warpAffine`, `fillPoly`,
  `ellipse`, the detector+tracker composite `detect_faces`) are bundled in a
  `Cv2Env` parameter: the repository only composes them, so every theorem
  quantifies over an arbitrary environment.  The repository-side logic
  (branching, mask selection via `np.where`, strength normalisation, loop
  structure, telemetry bookkeeping, codec fallback, frame-range resolution)
  is translated directly from the source.
* Python's variable-length shape tuples (7 fields when a frame range is
  attached, 5 otherwise) are modelled by a structure whose `frame_range`
  field is an `Option`: `frame_range = some _` corresponds to `len(shape) >= 7`.
-/

namespace Blur

/-- A BGR pixel. -/
abbrev Pix := ℕ × ℕ × ℕ

/-- A video frame: dimensions plus a total pixel map. -/
structure Frame where
  height : ℕ
  width : ℕ
  data : ℕ → ℕ → Pix

/-- A single-channel mask sized like a frame. -/
structure Mask where
  height : ℕ
  width : ℕ
  data : ℕ → ℕ → ℕ

/-- The all-zero mask `np.zeros((h, w), dtype=np.uint8)`. -/
def Mask.zero (h w : ℕ) : Mask := ⟨h, w, fun _ _ => 0⟩

/-- A constant frame (used for the `solid` / `black` fill sources). -/
def Frame.const (h w : ℕ) (c : Pix) : Frame := ⟨h, w, fun _ _ => c⟩

/-- Pointwise `np.where(mask[:, :, np.newaxis] == 255, a, b)`. -/
def Frame.select (m : Mask) (a b : Frame) : Frame :=
  ⟨b.height, b.width, fun y x => if m.data y x = 255 then a.data y x else b.data y x⟩

/-- Numpy basic slicing `f[y:y+h, x:x+w]` (clipped at the array bounds). -/
def Frame.slice (f : Frame) (y x h w : ℕ) : Frame :=
  ⟨min h (f.height - y), min w (f.width - x), fun r c => f.data (y + r) (x + c)⟩

theorem Frame.ext_iff {a b : Frame} :
    a = b ↔ a.height = b.height ∧ a.width = b.width ∧ a.data = b.data := by
  constructor
  · intro h; subst h; exact ⟨rfl, rfl, rfl⟩
  · rcases a with ⟨ah, aw, ad⟩
    rcases b with ⟨bh, bw, bd⟩
    rintro ⟨h1, h2, h3⟩
    simp_all

/-- One tracked face: `[track_id, (x, y, w, h), confidence, frame_index]`.
The confidence is an `Option` because `track.get_det_conf()` may be `None`. -/
structure FaceTrack where
  id : ℕ
  bbox : ℤ × ℤ × ℤ × ℤ
  confidence : Option ℚ
  frame_index : ℕ
  deriving DecidableEq, Repr

/-- A manual redaction shape.  The source stores shapes as tuples
`(shape_type, points, mask_type, blur_strength, color)` optionally extended
with `(start_frame, end_frame)`; `frame_range = some _` models `len >= 7`. -/
structure Shape where
  kind : String
  points : List (ℤ × ℤ)
  mask_type : String
  strength : ℕ
  color : Pix
  frame_range : Option (ℕ × ℕ)
  deriving DecidableEq, Repr

/-- The external OpenCV / detector primitives consumed by the tool.  These
are third-party library calls, so they are kept abstract; every theorem holds
for an arbitrary environment. -/
structure Cv2Env where
  gaussianBlur : Frame → ℕ → Frame
  pixelate : Frame → ℕ → Frame
  warpAffine : Frame → ℤ → Frame
  fillPolyMask : Mask → List (ℤ × ℤ) → Mask
  ellipseFill : Mask → ℤ × ℤ → ℤ × ℤ → ℕ → ℕ → Mask
  preciseFaceFill : Mask → ℤ → ℤ → ℤ → ℤ → Mask
  detect : Frame → List FaceTrack

/-- Session state read by the compositor and the export pipeline (the
ambient `self.*` fields of `VideoBlurApp` that drive frame processing).
`rtmpose_ready` models `self.rtmpose_initialized`; `height`/`width` are the
capture properties `CAP_PROP_FRAME_HEIGHT` / `CAP_PROP_FRAME_WIDTH`. -/
structure Config where
  rotation_enabled : Bool
  rotation_angle : ℤ
  auto_detect_faces : Bool
  rtmpose_ready : Bool
  detection_frequency : ℕ
  mask_type : String
  mask_shape : String
  blur_strength : ℕ
  mask_color : Pix
  shapes : List Shape
  crop_enabled : Bool
  crop_type : String
  crop_mask_type : String
  crop_all_frames : Bool
  crop_x : ℕ
  crop_y : ℕ
  crop_width : ℕ
  crop_height : ℕ
  crop_start_frame : ℕ
  crop_end_frame : ℕ
  trim_enabled : Bool
  trim_start_frame : ℕ
  trim_end_frame : ℕ
  blur_entire_video : Bool
  start_frame : ℕ
  end_frame : ℕ
  total_frames : ℕ
  height : ℕ
  width : ℕ

/-- `rotate_frame`: identity at angle 0, otherwise `cv2.warpAffine` about the
frame centre (the affine transform itself is an OpenCV primitive). -/
def rotate_frame (env : Cv2Env) (frame : Frame) (angle : ℤ) : Frame :=
  if angle = 0 then frame else env.warpAffine frame angle

/-- `cv2.rectangle(mask, (x1, y1), (x2, y2), 255, -1)`: fill the inclusive
rectangle spanned by the two (unordered) corners. -/
def drawRectMask (m : Mask) (x1 y1 x2 y2 : ℤ) : Mask :=
  ⟨m.height, m.width, fun r c =>
    if min x1 x2 ≤ (c : ℤ) ∧ (c : ℤ) ≤ max x1 x2 ∧
       min y1 y2 ≤ (r : ℤ) ∧ (r : ℤ) ≤ max y1 y2 then 255 else m.data r c⟩

/-- `create_face_mask`: accumulate one shape per tracked face (dispatching on
the global `mask_shape`) into a zero mask sized from the given frame. -/
def create_face_mask (env : Cv2Env) (mask_shape : String) (frame : Frame)
    (tracked : List FaceTrack) : Mask :=
  tracked.foldl
    (fun m t =>
      let x := t.bbox.1
      let y := t.bbox.2.1
      let w := t.bbox.2.2.1
      let h := t.bbox.2.2.2
      if mask_shape = "rectangle" then
        drawRectMask m x y (x + w) (y + h)
      else if mask_shape = "oval" then
        let center : ℤ × ℤ := (x + w / 2, y + h / 2)
        let m1 := env.ellipseFill m center (w / 2, h / 2) 0 360
        env.ellipseFill m1 (center.1, y + h / 4) (w / 2, h / 2) 0 180
      else if mask_shape = "precise" then
        env.preciseFaceFill m x y w h
      else m)
    (Mask.zero frame.height frame.width)

/-- `apply_mask_effect(frame, mask, mask_type, blur_strength, color)`:
full-frame effect computed first, then selected through the mask by
`np.where(mask == 255, effect, frame)`. -/
def apply_mask_effect (env : Cv2Env) (frame : Frame) (mask : Mask)
    (mask_type : String) (blur_strength : ℕ := 21) (color : Pix := (0, 0, 0)) : Frame :=
  if mask_type = "blur" then
    let s := if blur_strength % 2 = 0 then blur_strength + 1 else blur_strength
    Frame.select mask (env.gaussianBlur frame s) frame
  else if mask_type = "pixelate" then
    let scale := max 1 (blur_strength / 10)
    Frame.select mask (env.pixelate frame scale) frame
  else if mask_type = "solid" then
    Frame.select mask (Frame.const frame.height frame.width color) frame
  else if mask_type = "black" then
    Frame.select mask (Frame.const frame.height frame.width (0, 0, 0)) frame
  else frame

/-- Whether a shape is processed at a frame index: the compositor skips the
range test entirely for short (5-field) records, and otherwise skips the
shape when `idx < start` or `idx > end`. -/
def shapeActiveAt (s : Shape) (idx : ℕ) : Bool :=
  match s.frame_range with
  | none => true
  | some (a, b) => decide (a ≤ idx) && decide (idx ≤ b)

/-- The per-shape mask built inside the processing loops: `cv2.rectangle`
with min/max-normalised corners on a zero mask, or `cv2.fillPoly` for
polygon/freehand.  A rectangle record with fewer than two points would raise
in Python; the model leaves the mask empty there. -/
def shape_mask (env : Cv2Env) (h w : ℕ) (s : Shape) : Mask :=
  let m0 := Mask.zero h w
  if s.kind = "rectangle" then
    match s.points with
    | p1 :: p2 :: _ =>
        drawRectMask m0 (min p1.1 p2.1) (min p1.2 p2.2) (max p1.1 p2.1) (max p1.2 p2.2)
    | _ => m0
  else if s.kind = "polygon" ∨ s.kind = "freehand" then
    env.fillPolyMask m0 s.points
  else m0

/-- The manual-shape stage shared verbatim by `process_frame` and the export
loop: fold the shape list in insertion order, applying each active shape's
effect on top of the accumulated frame. -/
def apply_shapes_stage (env : Cv2Env) (shapes : List Shape) (h w idx : ℕ)
    (r : Frame) : Frame :=
  shapes.foldl
    (fun acc s =>
      if shapeActiveAt s idx then
        apply_mask_effect env acc (shape_mask env h w s) s.mask_type s.strength s.color
      else acc)
    r

/-- The inverse crop mask: `np.ones((H, W)) * 255` with the crop rectangle
`[y:y+h, x:x+w]` cleared to 0. -/
def invCropMask (H W x y w h : ℕ) : Mask :=
  ⟨H, W, fun r c => if y ≤ r ∧ r < y + h ∧ x ≤ c ∧ c < x + w then 0 else 255⟩

/-- Tail of the preview compositor after the face stage: manual shapes (mask
dimensions from the raw frame), then the crop preview, which handles only
`crop_type == "mask"`, ignores the crop activation range, and uses the
unclamped crop coordinates. -/
def preview_tail_stages (env : Cv2Env) (cfg : Config) (idx : ℕ)
    (frame r : Frame) : Frame :=
  let r1 := apply_shapes_stage env cfg.shapes frame.height frame.width idx r
  if cfg.crop_enabled ∧ 0 < cfg.crop_width ∧ 0 < cfg.crop_height ∧ cfg.crop_type = "mask" then
    apply_mask_effect env r1
      (invCropMask frame.height frame.width cfg.crop_x cfg.crop_y cfg.crop_width cfg.crop_height)
      cfg.crop_mask_type cfg.blur_strength cfg.mask_color
  else r1

/-- The interactive preview compositor `process_frame`: rotation, face
detection refresh on `frame_index % detection_frequency == 0` (or when no
tracks exist), face-union masking, manual shapes, crop preview.  Returns the
composited frame together with the updated `tracked_faces` state. -/
def process_frame (env : Cv2Env) (cfg : Config) (tracked : List FaceTrack)
    (frame_index : ℕ) (frame : Frame) : Frame × List FaceTrack :=
  let result :=
    if cfg.rotation_enabled ∧ cfg.rotation_angle ≠ 0 then
      rotate_frame env frame cfg.rotation_angle
    else frame
  let tr :=
    if cfg.auto_detect_faces ∧ cfg.rtmpose_ready then
      if frame_index % cfg.detection_frequency = 0 ∨ tracked = [] then
        env.detect frame
      else tracked
    else tracked
  let result2 :=
    if cfg.auto_detect_faces ∧ cfg.rtmpose_ready ∧ tr ≠ [] then
      apply_mask_effect env result (create_face_mask env cfg.mask_shape frame tr)
        cfg.mask_type cfg.blur_strength cfg.mask_color
    else result
  (preview_tail_stages env cfg frame_index frame result2, tr)

/-- One face entry of the per-frame telemetry list (`frame_faces` items). -/
structure FrameFaceEntry where
  face_id : ℕ
  bbox : ℤ × ℤ × ℤ × ℤ
  confidence : ℚ
  deriving DecidableEq, Repr

/-- The cumulative per-face telemetry record: the frame indices the face
appeared in plus a stored bbox and confidence. -/
structure FaceRecord where
  frames : List ℕ
  bbox : ℤ × ℤ × ℤ × ℤ
  confidence : ℚ
  deriving DecidableEq, Repr

/-- Lookup in a Python-dict model (insertion-ordered association list). -/
def assocLookup {α : Type} : List (ℕ × α) → ℕ → Option α
  | [], _ => none
  | (k, v) :: rest, key => if k = key then some v else assocLookup rest key

/-- Insert-or-overwrite in a Python-dict model. -/
def assocInsert {α : Type} : List (ℕ × α) → ℕ → α → List (ℕ × α)
  | [], k, v => [(k, v)]
  | (k0, v0) :: rest, k, v =>
      if k0 = k then (k0, v) :: rest else (k0, v0) :: assocInsert rest k v

/-- The face-tracking telemetry (`face_tracking_data`), keyed by frame index
and by face id. -/
structure Telemetry where
  frames : List (ℕ × List FrameFaceEntry)
  faces : List (ℕ × FaceRecord)
  deriving DecidableEq, Repr

/-- The empty telemetry record created at the start of a run. -/
def Telemetry.empty : Telemetry := ⟨[], []⟩

/-- The per-face dictionary update from the export loop: a new id gets
`{frames: [idx], bbox, confidence}`; an existing id gets `idx` appended to
its frame list and its bbox overwritten (the confidence field is not
touched on the update path). -/
def updateFaceRecord (faces : List (ℕ × FaceRecord)) (idx : ℕ) (t : FaceTrack) :
    List (ℕ × FaceRecord) :=
  match assocLookup faces t.id with
  | none => assocInsert faces t.id ⟨[idx], t.bbox, t.confidence.getD 0⟩
  | some r => assocInsert faces t.id ⟨r.frames ++ [idx], t.bbox, r.confidence⟩

/-- The telemetry step executed for a frame whose tracked-face list is
nonempty: update the per-face records and store this frame's face list. -/
def recordTelemetry (tele : Telemetry) (idx : ℕ) (tracked : List FaceTrack) :
    Telemetry :=
  let faces := tracked.foldl (fun fs t => updateFaceRecord fs idx t) tele.faces
  let frames := assocInsert tele.frames idx
    (tracked.map fun t => ⟨t.id, t.bbox, t.confidence.getD 0⟩)
  ⟨frames, faces⟩

/-- Result of one iteration of the export loop body. -/
structure FrameStep where
  frame : Frame
  tracked : List FaceTrack
  tele : Telemetry

/-- Tail of the export per-frame body after the face stage: manual shapes
(mask dimensions from the capture properties), then the crop stage with its
activation-range check, bounds clamping, and both crop modes (`traditional`
slicing and `mask` outside-effect). -/
def export_tail_stages (env : Cv2Env) (cfg : Config) (idx : ℕ) (r : Frame) : Frame :=
  let r1 := apply_shapes_stage env cfg.shapes cfg.height cfg.width idx r
  if cfg.crop_enabled ∧ 0 < cfg.crop_width ∧ 0 < cfg.crop_height then
    let inRange : Bool :=
      cfg.crop_all_frames ||
        (decide (cfg.crop_start_frame ≤ idx) && decide (idx ≤ cfg.crop_end_frame))
    if inRange then
      let x := min cfg.crop_x (cfg.width - 1)
      let y := min cfg.crop_y (cfg.height - 1)
      let w := min cfg.crop_width (cfg.width - x)
      let h := min cfg.crop_height (cfg.height - y)
      if cfg.crop_type = "traditional" then
        Frame.slice r1 y x h w
      else
        apply_mask_effect env r1 (invCropMask cfg.height cfg.width x y w h)
          cfg.crop_mask_type cfg.blur_strength cfg.mask_color
    else r1
  else r1

/-- The per-frame body of `process_video`: rotation, face-detection refresh
on `frame_count % detection_frequency == 0` (`frame_count` is the number of
frames processed so far in this run, not the absolute index), telemetry
accumulation, face masking, manual shapes, crop. -/
def export_frame_body (env : Cv2Env) (cfg : Config) (tracked : List FaceTrack)
    (tele : Telemetry) (frame_count current_frame_idx : ℕ) (frame : Frame) :
    FrameStep :=
  let result :=
    if cfg.rotation_enabled ∧ cfg.rotation_angle ≠ 0 then
      rotate_frame env frame cfg.rotation_angle
    else frame
  let tr :=
    if cfg.auto_detect_faces ∧ cfg.rtmpose_ready then
      if frame_count % cfg.detection_frequency = 0 ∨ tracked = [] then
        env.detect frame
      else tracked
    else tracked
  let tele2 :=
    if cfg.auto_detect_faces ∧ cfg.rtmpose_ready ∧ tr ≠ [] then
      recordTelemetry tele current_frame_idx tr
    else tele
  let result2 :=
    if cfg.auto_detect_faces ∧ cfg.rtmpose_ready ∧ tr ≠ [] then
      apply_mask_effect env result (create_face_mask env cfg.mask_shape frame tr)
        cfg.mask_type cfg.blur_strength cfg.mask_color
    else result
  ⟨export_tail_stages env cfg current_frame_idx result2, tr, tele2⟩

/-- Mutable state threaded through the export loop. -/
structure RunState where
  frames_written : ℕ
  errors : ℕ
  tracked : List FaceTrack
  tele : Telemetry
  readAborted : Bool

/-- The `while current_frame_idx <= end_frame` loop of `process_video`.
`fuel` is `end_frame + 1 - current`; `read` models sequential `cap.read()`
by absolute frame position (`none` = a failed read, which simply breaks the
loop); `writeOk` models whether `out.write` raised for the n-th frame (a
failure only increments the error counter). -/
def runLoop (env : Cv2Env) (cfg : Config) (read : ℕ → Option Frame)
    (writeOk : ℕ → Bool) : ℕ → ℕ → RunState → RunState
  | 0, _, st => st
  | fuel + 1, current, st =>
    match read current with
    | none => { st with readAborted := true }
    | some frame =>
      let step := export_frame_body env cfg st.tracked st.tele st.frames_written current frame
      let errors := if writeOk st.frames_written then st.errors else st.errors + 1
      runLoop env cfg read writeOk fuel (current + 1)
        ⟨st.frames_written + 1, errors, step.tracked, step.tele, st.readAborted⟩

/-- Frame-range resolution of `process_video`: trim range first, then the
explicit processing range, then the whole video. -/
def resolveRange (cfg : Config) : ℕ × ℕ :=
  if cfg.trim_enabled then (cfg.trim_start_frame, cfg.trim_end_frame)
  else if cfg.blur_entire_video = false then (cfg.start_frame, cfg.end_frame)
  else (0, cfg.total_frames - 1)

/-- The status text set by the `finally` block of `process_video`: it always
reports completion (with or without an error count); there is no failure
branch for an early read break. -/
def completionStatus (errors : ℕ) : String :=
  if 0 < errors then "Video processing completed with errors" else "Video processing completed"

/-- Observable outcome of one `process_video` invocation. -/
structure RunOutcome where
  writer_opened : Bool
  frames_written : ℕ
  errors : ℕ
  tracked : List FaceTrack
  tele : Telemetry
  readAborted : Bool
  status : String

/-- `process_video` after input validation: bail out if the writer failed to
open, otherwise resolve the frame range, run the loop from `start`, and
report the completion status from the `finally` block.  `tracked0` is the
`tracked_faces` state left over from the interactive session (it is not
reset before the run; only the detector and tracker internals are). -/
def process_video_run (env : Cv2Env) (cfg : Config) (read : ℕ → Option Frame)
    (writeOk : ℕ → Bool) (tracked0 : List FaceTrack) (writerOk : Bool) : RunOutcome :=
  if writerOk = false then
    ⟨false, 0, 0, tracked0, Telemetry.empty, false, "Failed to create output video"⟩
  else
    let se := resolveRange cfg
    let st := runLoop env cfg read writeOk (se.2 + 1 - se.1) se.1
      ⟨0, 0, tracked0, Telemetry.empty, false⟩
    ⟨true, st.frames_written, st.errors, st.tracked, st.tele, st.readAborted,
      completionStatus st.errors⟩

/-- The extension-to-preferred-codec map of `get_video_writer`
(`codec_map.get(ext, 'avc1')`). -/
def codec_map (ext : String) : String :=
  if ext = ".mp4" then "avc1"
  else if ext = ".avi" then "XVID"
  else if ext = ".mov" then "avc1"
  else if ext = ".mkv" then "XVID"
  else if ext = ".wmv" then "WMV2"
  else "avc1"

/-- The fallback loop of `get_video_writer`: walk the candidate list,
skipping the already-tried preferred codec, constructing a writer for each
remaining candidate and stopping at the first that opens.  Returns whether
the final writer opened together with the list of codecs actually tried. -/
def tryFallbacks (opens : String → Bool) (preferred : String) :
    List String → Bool × List String
  | [] => (false, [])
  | c :: rest =>
    if c = preferred then tryFallbacks opens preferred rest
    else if opens c then (true, [c])
    else
      let r := tryFallbacks opens preferred rest
      (r.1, c :: r.2)

/-- `get_video_writer` for a fixed output size/fps: try the preferred codec
for the extension, then the fallback list `['mp4v', 'XVID', 'avc1', 'H264']`.
`opens` models whether `cv2.VideoWriter` opens with a given fourcc.  Returns
whether the returned writer is opened (false = the `EncoderUnavailable`
condition surfaced by the caller) and the codecs attempted in order. -/
def get_video_writer (opens : String → Bool) (ext : String) : Bool × List String :=
  let fourcc_str := codec_map ext
  if opens fourcc_str then (true, [fourcc_str])
  else
    let r := tryFallbacks opens fourcc_str ["mp4v", "XVID", "avc1", "H264"]
    (r.1, fourcc_str :: r.2)

/-- First-success scan over a codec list, written from the amended reading
of the fallback sentence (the candidate list with the already-tried
preferred codec removed); compared against `get_video_writer`. -/
def firstOpeningCodec (opens : String → Bool) : List String → Bool × List String
  | [] => (false, [])
  | c :: rest =>
    if opens c then (true, [c])
    else
      let r := firstOpeningCodec opens rest
      (r.1, c :: r.2)

/-- The authoring-session fields read when a drawing gesture completes. -/
structure DrawState where
  current_shape : List (ℤ × ℤ)
  mask_type_var : String
  blur_strength : ℕ
  mask_color : Pix
  frame_index : ℕ
  total_frames : ℕ

/-- `on_mouse_up` for the rectangle tool: append the release point and store
a 7-field record ranged `[frame_index, total_frames - 1]`. -/
def on_mouse_up_rectangle (st : DrawState) (pt : ℤ × ℤ) : Shape :=
  ⟨"rectangle", st.current_shape ++ [pt], st.mask_type_var, st.blur_strength,
    st.mask_color, some (st.frame_index, st.total_frames - 1)⟩

/-- `on_mouse_up` for the freehand tool: store the sampled polygon as a
7-field record when it has more than two points. -/
def on_mouse_up_freehand (st : DrawState) : Option Shape :=
  if 2 < st.current_shape.length then
    some ⟨"freehand", st.current_shape, st.mask_type_var, st.blur_strength,
      st.mask_color, some (st.frame_index, st.total_frames - 1)⟩
  else none

/-- `on_double_click` for the polygon tool: store the polygon as a 7-field
record when it has at least three points. -/
def on_double_click_polygon (st : DrawState) : Option Shape :=
  if 3 ≤ st.current_shape.length then
    some ⟨"polygon", st.current_shape, st.mask_type_var, st.blur_strength,
      st.mask_color, some (st.frame_index, st.total_frames - 1)⟩
  else none

/-! Concrete fixtures used by witnesses and counterexamples. -/

/-- An environment whose external primitives are inert (identity / empty). -/
def idEnv : Cv2Env :=
  ⟨fun f _ => f, fun f _ => f, fun f _ => f, fun m _ => m,
    fun m _ _ _ _ => m, fun m _ _ _ _ => m, fun _ => []⟩

/-- A 2x2 grey frame. -/
def frameC : Frame := ⟨2, 2, fun _ _ => (5, 5, 5)⟩

/-- A session with every optional stage disabled (the defaults after
`open_video` on a 100-frame 2x2 video). -/
def baseConfig : Config :=
  ⟨false, 0, false, false, 3, "blur", "oval", 21, (0, 0, 0), [],
    false, "traditional", "black", true, 0, 0, 0, 0, 0, 0,
    false, 0, 0, true, 0, 0, 100, 2, 2⟩

/-! ### C7: effects never touch pixels outside the mask -/

/-- C7: for every environment, frame, mask, effect kind among
blur/pixelate/solid/black, strength and color, every pixel whose mask value
is 0 is bit-identical to the corresponding input pixel after
`apply_mask_effect` (the selection condition is `mask == 255`, so unmasked
pixels always come from the copied input frame). -/
theorem effects_preserve_outside_mask (env : Cv2Env) (frame : Frame) (mask : Mask)
    (mt : String) (strength : ℕ) (color : Pix) (y x : ℕ)
    (hmt : mt ∈ (["blur", "pixelate", "solid", "black"] : List String))
    (hm : mask.data y x = 0) :
    (apply_mask_effect env frame mask mt strength color).data y x = frame.data y x := by
  simp only [List.mem_cons, List.not_mem_nil, or_false] at hmt
  rcases hmt with rfl | rfl | rfl | rfl <;>
    simp [apply_mask_effect, Frame.select, hm]

/-- Witness for C7 at a concrete frame, zero mask and the black effect. -/
theorem effects_preserve_outside_mask_witness :
    (apply_mask_effect idEnv frameC (Mask.zero 2 2) "black" 21 (0, 0, 0)).data 0 0 =
      frameC.data 0 0 :=
  effects_preserve_outside_mask idEnv frameC (Mask.zero 2 2) "black" 21 (0, 0, 0) 0 0
    (by decide) rfl

/-! ### C8: black and solid are idempotent -/

/-- C8: applying the `black` (respectively `solid`) effect twice with the
same mask, strength and color produces the same frame as applying it once:
both are deterministic fills selected through the mask. -/
theorem black_solid_idempotent (env : Cv2Env) (frame : Frame) (mask : Mask)
    (strength : ℕ) (color : Pix) :
    apply_mask_effect env (apply_mask_effect env frame mask "black" strength color)
        mask "black" strength color =
      apply_mask_effect env frame mask "black" strength color
    ∧ apply_mask_effect env (apply_mask_effect env frame mask "solid" strength color)
        mask "solid" strength color =
      apply_mask_effect env frame mask "solid" strength color := by
  constructor <;>
  · apply Frame.ext_iff.mpr
    refine ⟨rfl, rfl, ?_⟩
    funext y x
    by_cases h : mask.data y x = 255 <;>
      simp [apply_mask_effect, Frame.select, Frame.const, h]

/-! ### C10: gesture-created shapes carry an explicit frame range -/

/-- C10: every shape stored on completion of a drawing gesture (mouse-up for
rectangle/freehand, double-click for polygon) is a 7-field record whose
frame range is exactly `[frame_index, total_frames - 1]`, and the compositor
treats a shape as active at every frame index exactly when it is a short
record with no range (`len(shape) < 7`). -/
theorem gesture_shapes_have_range :
    (∀ (st : DrawState) (pt : ℤ × ℤ),
      (on_mouse_up_rectangle st pt).frame_range = some (st.frame_index, st.total_frames - 1))
    ∧ (∀ (st : DrawState) (s : Shape), on_mouse_up_freehand st = some s →
      s.frame_range = some (st.frame_index, st.total_frames - 1))
    ∧ (∀ (st : DrawState) (s : Shape), on_double_click_polygon st = some s →
      s.frame_range = some (st.frame_index, st.total_frames - 1))
    ∧ ∀ s : Shape, (∀ i, shapeActiveAt s i = true) ↔ s.frame_range = none := by
  refine ⟨fun _ _ => rfl, ?_, ?_, ?_⟩
  · intro st s h
    unfold on_mouse_up_freehand at h
    split at h
    · cases h; rfl
    · cases h
  · intro st s h
    unfold on_double_click_polygon at h
    split at h
    · cases h; rfl
    · cases h
  · intro s
    constructor
    · intro h
      rcases hr : s.frame_range with _ | ⟨a, b⟩
      · rfl
      · exfalso
        have hb := h (b + 1)
        rw [shapeActiveAt, hr] at hb
        simp at hb
    · intro h i
      rw [shapeActiveAt, h]

/-- A drawing state with a three-point pending shape at frame 5 of 100. -/
def st10 : DrawState := ⟨[(0, 0), (1, 0), (1, 1)], "blur", 21, (0, 0, 0), 5, 100⟩

/-- The shape `on_mouse_up` stores for `st10` in freehand mode. -/
def shapeF : Shape :=
  ⟨"freehand", [(0, 0), (1, 0), (1, 1)], "blur", 21, (0, 0, 0), some (5, 99)⟩

/-- The shape `on_double_click` stores for `st10` in polygon mode. -/
def shapeP : Shape :=
  ⟨"polygon", [(0, 0), (1, 0), (1, 1)], "blur", 21, (0, 0, 0), some (5, 99)⟩

/-- A 5-field (rangeless) shape record. -/
def shapeNoRange : Shape := ⟨"rectangle", [(0, 0), (1, 1)], "blur", 21, (0, 0, 0), none⟩

/-- Witness for C10 at concrete gestures and shapes. -/
theorem gesture_shapes_have_range_witness :
    (on_mouse_up_rectangle st10 (2, 2)).frame_range = some (5, 99)
    ∧ shapeF.frame_range = some (5, 99)
    ∧ shapeP.frame_range = some (5, 99)
    ∧ shapeActiveAt shapeNoRange 7 = true :=
  ⟨gesture_shapes_have_range.1 st10 (2, 2),
    gesture_shapes_have_range.2.1 st10 shapeF rfl,
    gesture_shapes_have_range.2.2.1 st10 shapeP rfl,
    (gesture_shapes_have_range.2.2.2 shapeNoRange).mpr rfl 7⟩

/-! ### C3: mp4 codec fallback order -/

/-- An opener under which every codec fails. -/
def opensNone : String → Bool := fun _ => false

/-- Counterexample for C3: when the preferred `avc1` fails for a `.mp4`
output, the fallback loop skips `avc1` (`if codec == fourcc_str: continue`),
so the writer constructions attempted are `avc1, mp4v, XVID, H264` — not the
claimed sequence that retries `avc1` between `XVID` and `H264`. -/
theorem mp4_fallback_skips_avc1 :
    (get_video_writer opensNone ".mp4").2 = ["avc1", "mp4v", "XVID", "H264"]
    ∧ ¬(get_video_writer opensNone ".mp4").2 = ["avc1", "mp4v", "XVID", "avc1", "H264"] := by
  constructor
  · rfl
  · decide

/-- C3 amended: for a `.mp4` output whose preferred codec `avc1` fails to
open, the constructor attempts the remaining candidates in the order
`mp4v`, `XVID`, `H264` (skipping the already-tried `avc1`), returning the
first writer that opens; and if every candidate fails the returned writer is
not opened, which the caller surfaces as the encoder-unavailable failure. -/
theorem mp4_fallback_order (opens : String → Bool) (h : opens "avc1" = false) :
    (get_video_writer opens ".mp4").1 =
      (firstOpeningCodec opens ["mp4v", "XVID", "H264"]).1
    ∧ (get_video_writer opens ".mp4").2 =
      "avc1" :: (firstOpeningCodec opens ["mp4v", "XVID", "H264"]).2
    ∧ ((∀ c ∈ (["avc1", "mp4v", "XVID", "H264"] : List String), opens c = false) →
      (get_video_writer opens ".mp4").1 = false) := by
  have hmap : codec_map ".mp4" = "avc1" := rfl
  refine ⟨?_, ?_, ?_⟩
  · cases h1 : opens "mp4v" <;> cases h2 : opens "XVID" <;> cases h3 : opens "H264" <;>
      simp [get_video_writer, hmap, tryFallbacks, firstOpeningCodec, h, h1, h2, h3]
  · cases h1 : opens "mp4v" <;> cases h2 : opens "XVID" <;> cases h3 : opens "H264" <;>
      simp [get_video_writer, hmap, tryFallbacks, firstOpeningCodec, h, h1, h2, h3]
  · intro hall
    have h1 := hall "mp4v" (by simp)
    have h2 := hall "XVID" (by simp)
    have h3 := hall "H264" (by simp)
    simp [get_video_writer, hmap, tryFallbacks, h, h1, h2, h3]

/-- Witness for the amended C3 with every codec failing. -/
theorem mp4_fallback_order_witness :
    (get_video_writer opensNone ".mp4").1 =
      (firstOpeningCodec opensNone ["mp4v", "XVID", "H264"]).1
    ∧ (get_video_writer opensNone ".mp4").2 =
      "avc1" :: (firstOpeningCodec opensNone ["mp4v", "XVID", "H264"]).2
    ∧ ((∀ c ∈ (["avc1", "mp4v", "XVID", "H264"] : List String), opensNone c = false) →
      (get_video_writer opensNone ".mp4").1 = false) :=
  mp4_fallback_order opensNone rfl

/-! ### C2: trim range precedence -/

/-- The loop processes exactly `fuel` frames when every read in the window
succeeds. -/
theorem runLoop_count (env : Cv2Env) (cfg : Config) (read : ℕ → Option Frame)
    (writeOk : ℕ → Bool) :
    ∀ (fuel current : ℕ) (st : RunState),
      (∀ k, k < fuel → (read (current + k)).isSome) →
      (runLoop env cfg read writeOk fuel current st).frames_written =
        st.frames_written + fuel := by
  intro fuel
  induction fuel with
  | zero => intro current st _; simp [runLoop]
  | succ n ih =>
    intro current st h
    have h0 := h 0 n.succ_pos
    rw [Nat.add_zero] at h0
    rcases hr : read current with _ | frame
    · rw [hr] at h0; simp at h0
    · simp only [runLoop, hr]
      rw [ih (current + 1) _ ?_]
      · simp; omega
      · intro k hk
        have hks := h (k + 1) (by omega)
        have e : current + (k + 1) = current + 1 + k := by omega
        rwa [e] at hks

/-- C2: with trimming enabled and trim range `[10, 20]`, and every read in
that range succeeding, `process_video` processes and writes exactly 11
frames, regardless of `blur_entire_video` and of the explicit
`start_frame`/`end_frame` settings: the resolved range precedence is trim,
then explicit range, then entire video. -/
theorem trim_range_eleven_frames (env : Cv2Env) (cfg : Config)
    (read : ℕ → Option Frame) (writeOk : ℕ → Bool) (tracked0 : List FaceTrack)
    (ht : cfg.trim_enabled = true) (h10 : cfg.trim_start_frame = 10)
    (h20 : cfg.trim_end_frame = 20)
    (hread : ∀ k, 10 ≤ k → k ≤ 20 → (read k).isSome) :
    (process_video_run env cfg read writeOk tracked0 true).frames_written = 11 := by
  have hres : resolveRange cfg = (10, 20) := by
    simp [resolveRange, ht, h10, h20]
  simp only [process_video_run, hres]
  norm_num
  rw [runLoop_count env cfg read writeOk 11 10 _ ?_]
  · intro k hk
    exact hread (10 + k) (by omega) (by omega)

/-- A read stream that always succeeds. -/
def readAll : ℕ → Option Frame := fun _ => some frameC

/-- The trim configuration `[10, 20]` used by the C2 and C5 witnesses. -/
def cfgTrim : Config :=
  { baseConfig with trim_enabled := true, trim_start_frame := 10, trim_end_frame := 20 }

/-- Witness for C2 on a concrete all-successful run. -/
theorem trim_range_eleven_frames_witness :
    (process_video_run idEnv cfgTrim readAll (fun _ => true) [] true).frames_written = 11 :=
  trim_range_eleven_frames idEnv cfgTrim readAll (fun _ => true) [] rfl rfl rfl
    (fun _ _ _ => rfl)

/-! ### C5: behaviour on a failed read -/

/-- When a read fails at index `j` inside the loop window (all earlier reads
succeeding), the loop breaks: it counts exactly the frames before `j` and
records that the read aborted. -/
theorem runLoop_abort (env : Cv2Env) (cfg : Config) (read : ℕ → Option Frame)
    (writeOk : ℕ → Bool) :
    ∀ (fuel current : ℕ) (st : RunState) (j : ℕ),
      current ≤ j → j < current + fuel →
      (∀ k, current ≤ k → k < j → (read k).isSome) → read j = none →
      (runLoop env cfg read writeOk fuel current st).frames_written =
          st.frames_written + (j - current)
        ∧ (runLoop env cfg read writeOk fuel current st).readAborted = true := by
  intro fuel
  induction fuel with
  | zero => intro current st j h1 h2 _ _; omega
  | succ n ih =>
    intro current st j h1 h2 hpre hj
    by_cases hc : current = j
    · subst hc
      simp only [runLoop, hj]
      exact ⟨by simp, by simp⟩
    · have hlt : current < j := lt_of_le_of_ne h1 hc
      have h0 := hpre current le_rfl hlt
      rcases hr : read current with _ | frame
      · rw [hr] at h0; simp at h0
      · simp only [runLoop, hr]
        constructor
        · rw [(ih (current + 1) _ j (by omega) (by omega)
            (fun k hk1 hk2 => hpre k (by omega) hk2) hj).1]
          simp
          omega
        · exact (ih (current + 1) _ j (by omega) (by omega)
            (fun k hk1 hk2 => hpre k (by omega) hk2) hj).2

/-- C5 amended: if a read fails at an index strictly before the resolved end
index (with all earlier reads succeeding), the export loop simply stops
early: the run writes only the frames read before the failure and then goes
through the normal completion path, reporting the usual completion status
(whose variant depends only on the write-error counter) — it does not abort
with a distinct failure state or notice. -/
theorem read_failure_truncates_run (env : Cv2Env) (cfg : Config)
    (read : ℕ → Option Frame) (writeOk : ℕ → Bool) (tracked0 : List FaceTrack)
    (j : ℕ) (h1 : (resolveRange cfg).1 ≤ j) (h2 : j < (resolveRange cfg).2)
    (hpre : ∀ k, (resolveRange cfg).1 ≤ k → k < j → (read k).isSome)
    (hj : read j = none) :
    (process_video_run env cfg read writeOk tracked0 true).readAborted = true
    ∧ (process_video_run env cfg read writeOk tracked0 true).frames_written =
        j - (resolveRange cfg).1
    ∧ (process_video_run env cfg read writeOk tracked0 true).status =
        completionStatus (process_video_run env cfg read writeOk tracked0 true).errors := by
  have habort := runLoop_abort env cfg read writeOk
    ((resolveRange cfg).2 + 1 - (resolveRange cfg).1) (resolveRange cfg).1
    ⟨0, 0, tracked0, Telemetry.empty, false⟩ j h1 (by omega) hpre hj
  refine ⟨?_, ?_, ?_⟩
  · simp only [process_video_run, Bool.true_eq_false, if_false]
    exact habort.2
  · simp only [process_video_run, Bool.true_eq_false, if_false]
    rw [habort.1]
    simp
  · rfl

/-- A read stream failing at absolute index 12. -/
def readFailAt12 : ℕ → Option Frame := fun k => if k = 12 then none else some frameC

/-- Counterexample for C5: exporting with trim range `[10, 20]` while the
read at index 12 fails produces a run that writes 2 frames and reports the
very same "Video processing completed" status text as a fully successful
run — there is no failure state and no partial-result notice. -/
theorem read_failure_completes_normally :
    (process_video_run idEnv cfgTrim readFailAt12 (fun _ => true) [] true).frames_written = 2
    ∧ (process_video_run idEnv cfgTrim readFailAt12 (fun _ => true) [] true).status =
        "Video processing completed"
    ∧ (process_video_run idEnv cfgTrim readFailAt12 (fun _ => true) [] true).status =
        (process_video_run idEnv cfgTrim readAll (fun _ => true) [] true).status := by
  refine ⟨rfl, rfl, rfl⟩

/-- Witness for the amended C5 at the concrete failing stream. -/
theorem read_failure_truncates_run_witness :
    (process_video_run idEnv cfgTrim readFailAt12 (fun _ => true) [] true).readAborted = true
    ∧ (process_video_run idEnv cfgTrim readFailAt12 (fun _ => true) [] true).frames_written =
        12 - (resolveRange cfgTrim).1
    ∧ (process_video_run idEnv cfgTrim readFailAt12 (fun _ => true) [] true).status =
        completionStatus
          (process_video_run idEnv cfgTrim readFailAt12 (fun _ => true) [] true).errors :=
  read_failure_truncates_run idEnv cfgTrim readFailAt12 (fun _ => true) [] 12
    (by decide) (by decide)
    (fun k _ hk2 => by
      have hne : k ≠ 12 := by omega
      simp [readFailAt12, hne])
    rfl

/-! ### C6: detection refresh cadence -/

/-- C6 amended: with auto face detection active, the preview compositor
refreshes `tracked_faces` exactly on frames where the absolute
`frame_index % detection_frequency == 0` or no tracks exist yet, while the
export loop refreshes exactly when the relative processed-frame counter
`frame_count % detection_frequency == 0` or no tracks exist yet; every other
frame reuses the previous tracks verbatim.  The export cadence is therefore
relative to the start of the run, not to the absolute frame index. -/
theorem detection_cadence (env : Cv2Env) (cfg : Config) (tracked : List FaceTrack)
    (tele : Telemetry) (count idx : ℕ) (frame : Frame)
    (ha : cfg.auto_detect_faces = true) (hready : cfg.rtmpose_ready = true) :
    (process_frame env cfg tracked idx frame).2 =
      (if idx % cfg.detection_frequency = 0 ∨ tracked = [] then env.detect frame
        else tracked)
    ∧ (export_frame_body env cfg tracked tele count idx frame).tracked =
      (if count % cfg.detection_frequency = 0 ∨ tracked = [] then env.detect frame
        else tracked) := by
  constructor
  · simp [process_frame, ha, hready]
  · simp [export_frame_body, ha, hready]

/-- An initial track (left over from the interactive session). -/
def track0 : FaceTrack := ⟨0, (0, 0, 0, 0), some 1, 0⟩

/-- The track returned by the detector in the fixtures. -/
def track1 : FaceTrack := ⟨1, (1, 1, 0, 0), some 1, 0⟩

/-- An environment whose detector always reports `track1`. -/
def envDetect1 : Cv2Env := { idEnv with detect := fun _ => [track1] }

/-- A session with auto face detection on (frequency 3, rectangle face
masks, black effect) and everything else off. -/
def cfgFace : Config :=
  { baseConfig with
    auto_detect_faces := true
    rtmpose_ready := true
    mask_shape := "rectangle"
    mask_type := "black" }

/-- Counterexample for C6: in the export path at absolute frame index 3 with
`detection_frequency = 3` and relative frame counter 2, the claimed cadence
(`frame_index mod detection_frequency == 0`, hence a refresh at index 3)
does not happen: the body keeps the stale tracks and does not invoke the
detector. -/
theorem export_cadence_not_absolute :
    (export_frame_body envDetect1 cfgFace [track0] Telemetry.empty 2 3 frameC).tracked
        = [track0]
    ∧ (export_frame_body envDetect1 cfgFace [track0] Telemetry.empty 2 3 frameC).tracked
        ≠ envDetect1.detect frameC := by
  exact ⟨rfl, by decide⟩

/-- Witness for the amended C6 at concrete inputs. -/
theorem detection_cadence_witness :
    (process_frame envDetect1 cfgFace [track0] 3 frameC).2 =
      (if 3 % cfgFace.detection_frequency = 0 ∨ [track0] = ([] : List FaceTrack) then
        envDetect1.detect frameC else [track0])
    ∧ (export_frame_body envDetect1 cfgFace [track0] Telemetry.empty 2 3 frameC).tracked =
      (if 2 % cfgFace.detection_frequency = 0 ∨ [track0] = ([] : List FaceTrack) then
        envDetect1.detect frameC else [track0]) :=
  detection_cadence envDetect1 cfgFace [track0] Telemetry.empty 2 3 frameC rfl rfl

/-! ### C4: per-face telemetry accumulation -/

theorem assocLookup_insert_self {α : Type} (l : List (ℕ × α)) (k : ℕ) (v : α) :
    assocLookup (assocInsert l k v) k = some v := by
  induction l with
  | nil => simp [assocInsert, assocLookup]
  | cons p rest ih =>
    by_cases h : p.1 = k <;>
      simp [assocInsert, assocLookup, h, ih]

theorem assocLookup_insert_ne {α : Type} (l : List (ℕ × α)) (k : ℕ) (v : α)
    (key : ℕ) (h : k ≠ key) :
    assocLookup (assocInsert l k v) key = assocLookup l key := by
  induction l with
  | nil => simp [assocInsert, assocLookup, h]
  | cons p rest ih =>
    by_cases hp : p.1 = k
    · simp [assocInsert, assocLookup, hp, h]
    · by_cases hq : p.1 = key <;>
        simp [assocInsert, assocLookup, hp, hq, ih, Ne.symm h]

/-- The per-face update stores the latest bbox at its own key. -/
theorem updateFaceRecord_lookup_eq (faces : List (ℕ × FaceRecord)) (idx : ℕ)
    (t : FaceTrack) :
    assocLookup (updateFaceRecord faces idx t) t.id =
      some (match assocLookup faces t.id with
        | none => ⟨[idx], t.bbox, t.confidence.getD 0⟩
        | some r => ⟨r.frames ++ [idx], t.bbox, r.confidence⟩) := by
  unfold updateFaceRecord
  rcases h : assocLookup faces t.id with _ | r <;>
    simp [h, assocLookup_insert_self]

/-- The per-face update leaves other keys untouched. -/
theorem updateFaceRecord_lookup_ne (faces : List (ℕ × FaceRecord)) (idx : ℕ)
    (t : FaceTrack) (key : ℕ) (h : t.id ≠ key) :
    assocLookup (updateFaceRecord faces idx t) key = assocLookup faces key := by
  unfold updateFaceRecord
  rcases assocLookup faces t.id with _ | r <;>
    simp [assocLookup_insert_ne _ _ _ _ h]

/-- Folding updates for tracks with other ids leaves a key untouched. -/
theorem foldl_update_lookup_ne (idx key : ℕ) :
    ∀ (tracked : List FaceTrack) (faces : List (ℕ × FaceRecord)),
      (∀ t ∈ tracked, t.id ≠ key) →
      assocLookup (tracked.foldl (fun fs t => updateFaceRecord fs idx t) faces) key =
        assocLookup faces key := by
  intro tracked
  induction tracked with
  | nil => intro faces _; rfl
  | cons u rest ih =>
    intro faces h
    simp only [List.foldl_cons]
    rw [ih _ (fun t ht => h t (List.mem_cons_of_mem u ht)),
      updateFaceRecord_lookup_ne _ _ _ _ (h u (List.mem_cons_self u rest))]

/-- Folding the per-face updates over a frame's track list (with the
tracker's unique ids) rewrites each present id's record: the frame index is
appended, the bbox becomes the latest one, and the confidence keeps its
previous value (or the track's confidence on first appearance). -/
theorem foldl_update_lookup (idx : ℕ) :
    ∀ (tracked : List FaceTrack) (faces : List (ℕ × FaceRecord)) (t : FaceTrack),
      t ∈ tracked → (tracked.map FaceTrack.id).Nodup →
      assocLookup (tracked.foldl (fun fs t' => updateFaceRecord fs idx t') faces) t.id =
        some (match assocLookup faces t.id with
          | none => ⟨[idx], t.bbox, t.confidence.getD 0⟩
          | some r => ⟨r.frames ++ [idx], t.bbox, r.confidence⟩) := by
  intro tracked
  induction tracked with
  | nil => intro faces t ht; cases ht
  | cons u rest ih =>
    intro faces t ht hnd
    have hnd' := hnd
    rw [List.map_cons, List.nodup_cons] at hnd'
    rcases List.mem_cons.mp ht with rfl | htr
    · have hrest : ∀ v ∈ rest, v.id ≠ t.id := by
        intro v hv hvid
        exact hnd'.1 (hvid ▸ List.mem_map_of_mem FaceTrack.id hv)
      simp only [List.foldl_cons]
      rw [foldl_update_lookup_ne idx t.id rest _ hrest, updateFaceRecord_lookup_eq]
    · have hne : u.id ≠ t.id := by
        intro h
        exact hnd'.1 (h ▸ List.mem_map_of_mem FaceTrack.id htr)
      simp only [List.foldl_cons]
      rw [ih _ t htr hnd'.2, updateFaceRecord_lookup_ne _ _ _ _ hne]

/-- C4 amended: after the telemetry step for a frame in which a tracked face
with a given id is present (tracker ids being unique within a frame), the
stored record for that id has the frame index appended to its frame list and
the bbox of the latest appearance, but the stored confidence is the one from
the face's first recorded appearance: the update path overwrites only the
bbox, never the confidence. -/
theorem telemetry_record_update (tele : Telemetry) (idx : ℕ)
    (tracked : List FaceTrack) (t : FaceTrack) (ht : t ∈ tracked)
    (hnd : (tracked.map FaceTrack.id).Nodup) :
    assocLookup (recordTelemetry tele idx tracked).faces t.id =
      some (match assocLookup tele.faces t.id with
        | none => ⟨[idx], t.bbox, t.confidence.getD 0⟩
        | some r => ⟨r.frames ++ [idx], t.bbox, r.confidence⟩) := by
  unfold recordTelemetry
  exact foldl_update_lookup idx tracked tele.faces t ht hnd

/-- Witness for the amended C4 on a first appearance. -/
theorem telemetry_record_update_witness :
    assocLookup (recordTelemetry Telemetry.empty 7 [track1]).faces track1.id =
      some ⟨[7], track1.bbox, (track1.confidence).getD 0⟩ :=
  telemetry_record_update Telemetry.empty 7 [track1] track1 (by simp) (by simp)

/-- A 2x1 grey frame (read at index 0 in the C4 run). -/
def frameW1 : Frame := ⟨2, 1, fun _ _ => (5, 5, 5)⟩

/-- A 2x2 grey frame (read at index 1 in the C4 run). -/
def frameW2 : Frame := ⟨2, 2, fun _ _ => (5, 5, 5)⟩

/-- A two-frame read stream whose frames have distinct widths. -/
def read2 : ℕ → Option Frame :=
  fun k => if k = 0 then some frameW1 else if k = 1 then some frameW2 else none

/-- An environment whose detector reports one face (id 0) whose bbox width
and confidence encode the width of the frame it was run on. -/
def envC4 : Cv2Env :=
  { idEnv with
    detect := fun f => [⟨0, (0, 0, (f.width : ℤ), 1), some (f.width : ℚ), 0⟩] }

/-- A two-frame export session detecting on every frame. -/
def cfgC4 : Config :=
  { baseConfig with
    auto_detect_faces := true
    rtmpose_ready := true
    detection_frequency := 1
    mask_shape := "rectangle"
    mask_type := "black"
    total_frames := 2 }

/-- Counterexample for C4: in a two-frame export where face id 0 is detected
on both frames (bbox and confidence changing between them), the cumulative
telemetry record ends with the bbox of the latest appearance but with the
confidence of the first appearance — not the latest one, as the claim
states. -/
theorem telemetry_confidence_stale :
    (assocLookup (process_video_run envC4 cfgC4 read2 (fun _ => true) [] true).tele.faces
        0).map FaceRecord.bbox =
      ((envC4.detect frameW2).head?.map FaceTrack.bbox)
    ∧ (assocLookup (process_video_run envC4 cfgC4 read2 (fun _ => true) [] true).tele.faces
        0).map FaceRecord.confidence ≠
      ((envC4.detect frameW2).head?.map fun t => t.confidence.getD 0) := by
  constructor
  · rfl
  · decide

/-! ### C9: face masks are built in un-rotated image space -/

/-- C9: when rotation is enabled with a nonzero angle, auto face detection
is active, the refresh condition of the respective path holds and the
detector reports at least one face, both the preview compositor and the
export body run detection on the raw input frame and rasterize the face
union mask from that raw frame, while applying the resulting effect to the
already-rotated frame (the face-mask coordinates stay in un-rotated image
space). -/
theorem face_mask_from_raw_frame (env : Cv2Env) (cfg : Config)
    (tracked : List FaceTrack) (tele : Telemetry) (count idx : ℕ) (frame : Frame)
    (hrot : cfg.rotation_enabled = true) (hang : cfg.rotation_angle ≠ 0)
    (ha : cfg.auto_detect_faces = true) (hready : cfg.rtmpose_ready = true)
    (hdet : env.detect frame ≠ [])
    (hprev : idx % cfg.detection_frequency = 0 ∨ tracked = [])
    (hexp : count % cfg.detection_frequency = 0 ∨ tracked = []) :
    (process_frame env cfg tracked idx frame).1 =
      preview_tail_stages env cfg idx frame
        (apply_mask_effect env (env.warpAffine frame cfg.rotation_angle)
          (create_face_mask env cfg.mask_shape frame (env.detect frame))
          cfg.mask_type cfg.blur_strength cfg.mask_color)
    ∧ (export_frame_body env cfg tracked tele count idx frame).frame =
      export_tail_stages env cfg idx
        (apply_mask_effect env (env.warpAffine frame cfg.rotation_angle)
          (create_face_mask env cfg.mask_shape frame (env.detect frame))
          cfg.mask_type cfg.blur_strength cfg.mask_color) := by
  constructor
  · simp [process_frame, rotate_frame, hrot, hang, ha, hready, hprev, hdet]
  · simp [export_frame_body, rotate_frame, hrot, hang, ha, hready, hexp, hdet]

/-- A rotated variant of the face-detection session. -/
def cfgRot : Config :=
  { cfgFace with rotation_enabled := true, rotation_angle := 90 }

/-- Witness for C9 on a concrete rotated, detecting session. -/
theorem face_mask_from_raw_frame_witness :
    (process_frame envDetect1 cfgRot [] 0 frameC).1 =
      preview_tail_stages envDetect1 cfgRot 0 frameC
        (apply_mask_effect envDetect1 (envDetect1.warpAffine frameC cfgRot.rotation_angle)
          (create_face_mask envDetect1 cfgRot.mask_shape frameC (envDetect1.detect frameC))
          cfgRot.mask_type cfgRot.blur_strength cfgRot.mask_color)
    ∧ (export_frame_body envDetect1 cfgRot [] Telemetry.empty 0 0 frameC).frame =
      export_tail_stages envDetect1 cfgRot 0
        (apply_mask_effect envDetect1 (envDetect1.warpAffine frameC cfgRot.rotation_angle)
          (create_face_mask envDetect1 cfgRot.mask_shape frameC (envDetect1.detect frameC))
          cfgRot.mask_type cfgRot.blur_strength cfgRot.mask_color) :=
  face_mask_from_raw_frame envDetect1 cfgRot [] Telemetry.empty 0 0 frameC rfl
    (by decide) rfl rfl (by decide) (Or.inl rfl) (Or.inl rfl)

/-! ### C1: preview versus export equivalence -/

/-- With cropping disabled and the frame sized like the capture properties,
the post-face stages of the two paths coincide (the shape stage is shared
code; the crop stages are both skipped). -/
theorem tail_stages_eq (env : Cv2Env) (cfg : Config) (idx : ℕ) (frame r : Frame)
    (hc : cfg.crop_enabled = false)
    (hh : frame.height = cfg.height) (hw : frame.width = cfg.width) :
    preview_tail_stages env cfg idx frame r = export_tail_stages env cfg idx r := by
  simp [preview_tail_stages, export_tail_stages, hc, hh, hw]

/-- C1 amended: the preview compositor and the per-frame export body produce
byte-identical frames for the same frame index and authoring state provided
cropping is disabled, the frame has the capture dimensions, and the two
face-refresh decisions coincide (the export's relative frame counter
triggers a refresh exactly when the preview's absolute index does — e.g.
whenever the export starts at frame 0).  With cropping enabled the paths
diverge (the preview ignores traditional cropping and the crop activation
range), and the refresh cadences differ whenever the relative counter and
the absolute index disagree modulo the detection frequency. -/
theorem preview_export_agree (env : Cv2Env) (cfg : Config)
    (tracked : List FaceTrack) (tele : Telemetry) (count idx : ℕ) (frame : Frame)
    (hc : cfg.crop_enabled = false)
    (hh : frame.height = cfg.height) (hw : frame.width = cfg.width)
    (hiff : (count % cfg.detection_frequency = 0 ∨ tracked = []) ↔
      (idx % cfg.detection_frequency = 0 ∨ tracked = [])) :
    (process_frame env cfg tracked idx frame).1 =
      (export_frame_body env cfg tracked tele count idx frame).frame := by
  have htr : (if count % cfg.detection_frequency = 0 ∨ tracked = [] then
        env.detect frame else tracked) =
      (if idx % cfg.detection_frequency = 0 ∨ tracked = [] then
        env.detect frame else tracked) := by
    by_cases h : idx % cfg.detection_frequency = 0 ∨ tracked = []
    · rw [if_pos h, if_pos (hiff.mpr h)]
    · rw [if_neg h, if_neg (fun hx => h (hiff.mp hx))]
  simp only [process_frame, export_frame_body, htr]
  rw [tail_stages_eq env cfg idx frame _ hc hh hw]

/-- A session with a traditional 1x1 crop at the origin, active for all
frames, on a 2x2 video. -/
def cfgCropTrad : Config :=
  { baseConfig with crop_enabled := true, crop_width := 1, crop_height := 1 }

/-- Counterexample for C1, in two parts.  First, with a traditional crop
active the export body emits the 1x1 cropped frame while the preview ignores
traditional cropping entirely and returns the full 2x2 frame.  Second, with
auto detection on (frequency 3) at absolute frame index 3 but export frame
counter 2, the preview refreshes the tracks (masking pixel (1,1)) while the
export reuses the stale track (masking pixel (0,0)), so the composited
pixels differ. -/
theorem preview_export_divergence :
    (process_frame idEnv cfgCropTrad [] 0 frameC).1 ≠
      (export_frame_body idEnv cfgCropTrad [] Telemetry.empty 0 0 frameC).frame
    ∧ (process_frame envDetect1 cfgFace [track0] 3 frameC).1 ≠
      (export_frame_body envDetect1 cfgFace [track0] Telemetry.empty 2 3 frameC).frame := by
  constructor
  · intro h
    have e1 : (process_frame idEnv cfgCropTrad [] 0 frameC).1.height = 2 := rfl
    have e2 : (export_frame_body idEnv cfgCropTrad [] Telemetry.empty 0 0
      frameC).frame.height = 1 := rfl
    have hgt := congrArg Frame.height h
    rw [e1, e2] at hgt
    exact absurd hgt (by decide)
  · intro h
    have e1 : (process_frame envDetect1 cfgFace [track0] 3 frameC).1.data 0 0 =
      (5, 5, 5) := rfl
    have e2 : (export_frame_body envDetect1 cfgFace [track0] Telemetry.empty 2 3
      frameC).frame.data 0 0 = (0, 0, 0) := rfl
    have hpx := congrFun (congrFun (congrArg Frame.data h) 0) 0
    rw [e1, e2] at hpx
    exact absurd hpx (by decide)

/-- Witness for the amended C1 on a concrete effect-free state. -/
theorem preview_export_agree_witness :
    (process_frame idEnv baseConfig [] 0 frameC).1 =
      (export_frame_body idEnv baseConfig [] Telemetry.empty 0 0 frameC).frame :=
  preview_export_agree idEnv baseConfig [] Telemetry.empty 0 0 frameC rfl rfl rfl Iff.rfl

end Blur
